import Mathlib

/-!
Shallow embedding of the ETL pipeline in `etl.py` (class `ETLProcess`):
conformance of customers, employees and products, the time dimension and
sales fact construction, and the deduplicating loader.  Pandas/NumPy
primitives are embedded by their documented semantics on explicit lists;
nullable cells are `Option`; Python exceptions are `Except` errors.
-/

namespace ETL

/-! ## String helpers (Python `str.lower`, `str.strip`, `in`, `split`) -/

/-- Python `str.lower()` (ASCII-adequate for this pipeline's data). -/
def pyLower (s : String) : String := String.mk (s.toList.map Char.toLower)

/-- Python `str.strip()`: remove leading and trailing whitespace. -/
def pyStrip (s : String) : String :=
  String.mk (((s.toList.dropWhile Char.isWhitespace).reverse.dropWhile
    Char.isWhitespace).reverse)

/-- Python `.str.lower().str.strip()` as applied to the CITY/STATE columns. -/
def lowerStrip (s : String) : String := pyStrip (pyLower s)

/-- Does the first list start with the second one? -/
def startsWithL : List Char → List Char → Bool
  | _, [] => true
  | [], _ :: _ => false
  | a :: as, b :: bs => a == b && startsWithL as bs

/-- Substring occurrence on character lists. -/
def hasSubL : List Char → List Char → Bool
  | [], sub => sub.isEmpty
  | a :: as, sub => startsWithL (a :: as) sub || hasSubL as sub

/-- Python `sub in s` on strings. -/
def pyIn (sub s : String) : Bool := hasSubL s.toList sub.toList

/-- Python `s.split(' ')` (explicit single-space separator, keeps empties). -/
def splitSpaceAux (cur : List Char) : List Char → List (List Char)
  | [] => [cur.reverse]
  | c :: cs =>
    if c = ' ' then cur.reverse :: splitSpaceAux [] cs
    else splitSpaceAux (c :: cur) cs

/-- Python `s.split(' ')` on a string, as used on the package descriptor. -/
def pySplitSpace (s : String) : List String :=
  (splitSpaceAux [] s.toList).map String.mk

/-! ## Product conformer (`cargar_productos`) -/

/-- Python exception kinds that the product stage can raise per row. -/
inductive PyErr : Type
  | indexError
  | valueError
deriving DecidableEq, Repr

/-- Numeric value of a nonempty all-digit character list. -/
def digitsVal (cs : List Char) : Nat :=
  cs.foldl (fun a c => a * 10 + (c.toNat - 48)) 0

/-- Unsigned decimal-literal part of Python `float` parsing: digits with an
optional fractional part. -/
def pyFloatCore (body : List Char) : Option Rat :=
  match body.splitOn '.' with
  | [ip] =>
    if ip ≠ [] ∧ ip.all Char.isDigit then some (digitsVal ip : Rat)
    else none
  | [ip, fp] =>
    if (ip ≠ [] ∨ fp ≠ []) ∧ ip.all Char.isDigit ∧ fp.all Char.isDigit then
      some ((digitsVal ip : Rat) + (digitsVal fp : Rat) / ((10 : Rat) ^ fp.length))
    else none
  | _ => none

/-- Python `float(s)` restricted to plain decimal literals
(optional sign, digits, optional fractional part); other strings raise
`ValueError`, modelled as `none`.  Python strips surrounding whitespace. -/
def pyFloat? (s : String) : Option Rat :=
  match (pyStrip s).toList with
  | '-' :: r => (pyFloatCore r).map (fun v => -v)
  | '+' :: r => pyFloatCore r
  | r => pyFloatCore r

/-- `transform_liters` from `cargar_productos`: looks at the unit token
`lst[1]` (an `IndexError` when the split has fewer than two tokens),
then converts the numeric token `lst[0]`; a unit other than `Liter`/`cm3`
yields NaN (modelled `none`) without touching the numeric token. -/
def transform_liters (lst : List String) : Except PyErr (Option Rat) :=
  match lst with
  | x0 :: x1 :: _ =>
    if x1 = "Liter" then
      match pyFloat? x0 with
      | some v => .ok (some v)
      | none => .error .valueError
    else if x1 = "cm3" then
      match pyFloat? x0 with
      | some v => .ok (some (v / 1000))
      | none => .error .valueError
    else .ok none
  | _ => .error .indexError

/-- The `litros` column construction: `transform_liters` applied over the
split package descriptors; the first raised exception aborts the stage
(the surrounding `try` logs and re-raises). -/
def litrosStage (descs : List String) : Except PyErr (List (Option Rat)) :=
  descs.mapM (fun d => transform_liters (pySplitSpace d))

/-- `clasificar_bebida` from `cargar_productos`: nested substring checks
on the lowercased description. -/
def clasificar_bebida (detalle : String) : String :=
  let d := pyLower detalle
  if pyIn "diet" d then "Bebida de dieta"
  else if pyIn "caffeine" d then "Bebida de cafeína"
  else if pyIn "energy" d then "Bebida energética"
  else if pyIn "kool" d then "Bebida Kool"
  else if pyIn "root" d then "Bebida Root"
  else if pyIn "juice" d then "Jugo"
  else if pyIn "soda" d then "Bebida de soda"
  else "Otro tipo de bebida"

/-- The beverage keyword rules in source order, as an explicit list. -/
def reglasBebida : List (String × String) :=
  [("diet", "Bebida de dieta"),
   ("caffeine", "Bebida de cafeína"),
   ("energy", "Bebida energética"),
   ("kool", "Bebida Kool"),
   ("root", "Bebida Root"),
   ("juice", "Jugo"),
   ("soda", "Bebida de soda")]

/-- First-match-wins scan of an ordered keyword rule list, case-insensitive,
defaulting to the "other" category. -/
def firstMatch : List (String × String) → String → String
  | [], _ => "Otro tipo de bebida"
  | (k, c) :: rest, detalle =>
    if pyIn k (pyLower detalle) then c else firstMatch rest detalle

/-! ## Dates

Calendar dates are embedded as year/month/day triples; where the code
subtracts two dates to count elapsed days (`.dt.days`) the date is taken
as a day ordinal (`Int`). -/

structure SimpleDate where
  year : Int
  month : Nat
  day : Nat
deriving DecidableEq, Repr

/-! ## Employee conformer (`traducir_empleado`) -/

/-- NumPy comparison of a nullable tenure against a bound: a comparison
involving NaN (here `none`, from an unparsed hire date) is false. -/
def ltNan (a : Option Int) (b : Int) : Bool :=
  match a with
  | none => false
  | some x => decide (x < b)

/-- `(datetime.today() - df['fecha_empleo']).dt.days // 365` with dates as
day ordinals; an unparsed hire date (NaT) gives a null tenure. -/
def antiguedadOf (today : Int) (fecha_empleo : Option Int) : Option Int :=
  fecha_empleo.map (fun h => Int.fdiv (today - h) 365)

/-- The nested `np.where` assigning the tenure zone from `antiguedad`. -/
def zonaEmpleado (a : Option Int) : String :=
  if ltNan a 1 then "Nuevo"
  else if ltNan a 5 then "Medio"
  else "Antiguo"

/-- `df['sexo'].replace({'M': 'Masculino', 'F': 'Femenino'})`; unrecognized
codes pass through unchanged. -/
def traducirSexo (s : String) : String :=
  if s = "M" then "Masculino" else if s = "F" then "Femenino" else s

structure RawEmpleadoRow where
  EMPLOYEE_ID : Int
  FULL_NAME : String
  GENDER : String
  /-- Parsed hire date as a day ordinal; `none` = unparsable (NaT). -/
  EMPLOYMENT_DATE : Option Int
  BIRTH_DATE : Option SimpleDate
deriving DecidableEq, Repr

structure EmpleadoRow where
  id_vendedor : Int
  nombre : String
  sexo : String
  antiguedad : Option Int
  fecha_nacimiento : Option SimpleDate
  zona : String
deriving DecidableEq, Repr

/-- One row of `traducir_empleado` (the per-row content of the column-wise
pandas assignments). -/
def conformEmpleado (today : Int) (r : RawEmpleadoRow) : EmpleadoRow :=
  let a := antiguedadOf today r.EMPLOYMENT_DATE
  ⟨r.EMPLOYEE_ID, r.FULL_NAME, traducirSexo r.GENDER, a, r.BIRTH_DATE, zonaEmpleado a⟩

/-- `traducir_empleado`, row by row. -/
def traducir_empleado (today : Int) (df : List RawEmpleadoRow) : List EmpleadoRow :=
  df.map (conformEmpleado today)

/-! ## Customer conformer (`traducir_cliente`, `cargar_clientes`) -/

/-- A row of the region lookup table (`Regions.csv`), zipcode omitted as
unused by the conformer. -/
structure RegionRow where
  REGION : String
  STATE : String
  CITY : String
deriving DecidableEq, Repr

/-- In-place normalization of the region table's CITY/STATE columns:
`.str.lower().str.strip()`. -/
def normRegion (r : RegionRow) : RegionRow :=
  ⟨r.REGION, lowerStrip r.STATE, lowerStrip r.CITY⟩

/-- The region lookup inside the customer row loop: first row of
`regiones` (normalized) whose CITY and STATE equal the customer's
normalized values; its REGION, stripped.  A null city or state (NaN)
matches nothing, as in pandas. -/
def zonaLookup (regiones : List RegionRow) (ciudad estado : Option String) :
    Option String :=
  match ciudad, estado with
  | some c, some e =>
    ((regiones.map normRegion).find? (fun r => r.CITY == c && r.STATE == e)).map
      (fun r => pyStrip r.REGION)
  | _, _ => none

/-- `calcular_edad`: year difference, minus one when today's (month, day)
precedes the birthday's (month, day) lexicographically. -/
def calcular_edad (today : SimpleDate) (fecha_nacimiento : SimpleDate) : Int :=
  today.year - fecha_nacimiento.year -
    (if today.month < fecha_nacimiento.month ∨
        (today.month = fecha_nacimiento.month ∧ today.day < fecha_nacimiento.day)
     then 1 else 0)

/-- The age-bracket branch of the customer row loop: null birth date gives
the unknown bracket, otherwise brackets on `calcular_edad`. -/
def rangoEdadOf (today : SimpleDate) (birth : Option SimpleDate) : String :=
  match birth with
  | none => "Desconocido"
  | some b =>
    let age := calcular_edad today b
    if age < 20 then "Menos de 20"
    else if 20 ≤ age ∧ age < 40 then "20 a 40"
    else if 40 ≤ age ∧ age < 60 then "40 a 60"
    else "Más de 60"

/-- A raw customer record; `BIRTH_DATE` carries the result of
`pd.to_datetime(..., errors='coerce')` (`none` = NaT). -/
structure RawCustomerRow where
  CUSTOMER_ID : Option Int
  FULL_NAME : Option String
  CITY : Option String
  STATE : Option String
  BIRTH_DATE : Option SimpleDate
deriving DecidableEq, Repr

/-- A raw customer source table: its column names (for the schema check)
and its rows. -/
structure RawCustomerTable where
  cols : List String
  rows : List RawCustomerRow
deriving DecidableEq, Repr

structure ClienteRow where
  id_cliente : Option Int
  nombre : Option String
  ciudad : Option String
  provincia : Option String
  zona : Option String
  tipo_cliente : String
  rango_edad : String
deriving DecidableEq, Repr

/-- The columns `traducir_cliente` accesses on its input dataframe;
a pandas `KeyError` (the spec's SchemaError) is raised when any is absent. -/
def requiredCustomerCols : List String :=
  ["CUSTOMER_ID", "FULL_NAME", "CITY", "STATE", "BIRTH_DATE"]

/-- The stage-fatal error of the customer conformer: a required input
column is absent. -/
inductive ConformError : Type
  | schemaError (col : String)
deriving DecidableEq, Repr

/-- One row of `traducir_cliente`'s output. -/
def conformCliente (today : SimpleDate) (regiones : List RegionRow)
    (tipo_cliente : String) (r : RawCustomerRow) : ClienteRow :=
  let ciudad := r.CITY.map lowerStrip
  let provincia := r.STATE.map lowerStrip
  ⟨r.CUSTOMER_ID, r.FULL_NAME, ciudad, provincia,
    zonaLookup regiones ciudad provincia, tipo_cliente,
    rangoEdadOf today r.BIRTH_DATE⟩

/-- `traducir_cliente`: raises on the first missing required column
(column access on a dataframe), otherwise conforms every row; per-row
issues never fail. -/
def traducir_cliente (today : SimpleDate) (regiones : List RegionRow)
    (df : RawCustomerTable) (tipo_cliente : String) :
    Except ConformError (List ClienteRow) :=
  match requiredCustomerCols.find? (fun c => !(df.cols.contains c)) with
  | some c => .error (.schemaError c)
  | none => .ok (df.rows.map (conformCliente today regiones tipo_cliente))

/-- `cargar_clientes`: conform the retail source then the wholesale source
and concatenate; an error in either propagates (the `except` re-raises). -/
def cargar_clientes (today : SimpleDate) (regiones : List RegionRow)
    (customer_r customer_w : RawCustomerTable) :
    Except ConformError (List ClienteRow) :=
  match traducir_cliente today regiones customer_r "minorista" with
  | .error e => .error e
  | .ok a =>
    match traducir_cliente today regiones customer_w "mayorista" with
    | .error e => .error e
    | .ok b => .ok (a ++ b)

/-! ## Load orchestrator (`insertar_datos`) -/

/-- `df.drop_duplicates(subset=[df.columns[0]])`: keep a row iff no earlier
row has the same value in the key column. -/
def dropDuplicatesAux {α κ : Type} [DecidableEq κ] (key : α → κ) (seen : List κ) :
    List α → List α
  | [] => []
  | r :: rs =>
    if key r ∈ seen then dropDuplicatesAux key seen rs
    else r :: dropDuplicatesAux key (key r :: seen) rs

/-- Pandas `drop_duplicates` on the first (key) column, keeping first
occurrences. -/
def dropDuplicatesFirst {α κ : Type} [DecidableEq κ] (key : α → κ)
    (df : List α) : List α :=
  dropDuplicatesAux key [] df

/-- Outcome of `insertar_datos` for one table: rows appended to the
destination, or the empty-table notice (date-string canonicalization,
pure I/O formatting, is not modelled). -/
inductive LoadResult (α : Type) : Type
  | inserted (rows : List α)
  | skipped
deriving DecidableEq, Repr

/-- The per-table body of `insertar_datos`: empty tables are skipped with
a notice, non-empty tables are deduplicated on the key column and appended. -/
def insertar_tabla {α κ : Type} [DecidableEq κ] (key : α → κ) (df : List α) :
    LoadResult α :=
  if df.isEmpty then .skipped else .inserted (dropDuplicatesFirst key df)

/-! ## Time dimension and sales fact (`cargar_dimension_tiempo_ventas`) -/

/-- One row of the three-way `billing ⋈ billing_detail ⋈ prices` join,
after `pd.to_datetime(df['date'], errors='coerce')` (`none` = NaT). -/
structure BillingRow where
  billing_id : Int
  region : Option String
  branch_id : Int
  date : Option SimpleDate
  customer_id : Int
  employee_id : Int
  product_id : Int
  quantity : Int
  date_price : Option SimpleDate
  price : Rat
deriving DecidableEq, Repr

/-- A row of `dimension_tiempo`; the source column spelled with `ñ` is
rendered `anio` here. -/
structure TimeRow where
  id_tiempo : Nat
  fecha : SimpleDate
  dia : Nat
  mes : Nat
  trimestre : Nat
  anio : Int
deriving DecidableEq, Repr

structure VentaRow where
  id_tiempo : Option Nat
  id_cliente : Int
  id_vendedor : Int
  id_producto : Int
  cantidad : Int
  precio : Rat
deriving DecidableEq, Repr

/-- `billing_df.dropna(subset=['date'], inplace=True)`. -/
def parsedRows (billing_df : List BillingRow) : List BillingRow :=
  billing_df.filter (fun r => r.date.isSome)

/-- `billing_df['date'].drop_duplicates()` on the dropna'd frame:
distinct dates in first-seen order. -/
def uniqueDates (billing_df : List BillingRow) : List SimpleDate :=
  dropDuplicatesFirst (fun d => d) ((parsedRows billing_df).filterMap (fun r => r.date))

/-- Rows of `dimension_tiempo` with ids from `n` (`unique_dates.index + 1`),
with pandas' `dt.day`/`dt.month`/`dt.quarter`/`dt.year` accessors. -/
def timeRowsFrom (n : Nat) : List SimpleDate → List TimeRow
  | [] => []
  | d :: ds => ⟨n, d, d.day, d.month, (d.month + 2) / 3, d.year⟩ :: timeRowsFrom (n + 1) ds

/-- The time dimension: surrogate ids `1..N` over the distinct parsed dates. -/
def dimension_tiempo (billing_df : List BillingRow) : List TimeRow :=
  timeRowsFrom 1 (uniqueDates billing_df)

/-- `date_id_map = dimension_tiempo.set_index('fecha')['id_tiempo']`,
used through `.map`: a missing date gives NaN (`none`). -/
def dateIdMap (billing_df : List BillingRow) (d : SimpleDate) : Option Nat :=
  ((dimension_tiempo billing_df).find? (fun t => t.fecha == d)).map (fun t => t.id_tiempo)

/-- The fact table: one row per surviving join row, with the date mapped
to its surrogate time key. -/
def ventas (billing_df : List BillingRow) : List VentaRow :=
  (parsedRows billing_df).map (fun r =>
    ⟨r.date.bind (dateIdMap billing_df), r.customer_id, r.employee_id,
      r.product_id, r.quantity, r.price⟩)


/-! ## Helper lemmas -/

theorem zonaEmpleado_some (a : Int) :
    zonaEmpleado (some a) =
      if a < 1 then "Nuevo" else if a < 5 then "Medio" else "Antiguo" := by
  simp [zonaEmpleado, ltNan]

theorem splitSpaceAux_length_pos (l cur : List Char) :
    1 ≤ (splitSpaceAux cur l).length := by
  induction l generalizing cur with
  | nil => simp [splitSpaceAux]
  | cons c cs ih =>
    simp only [splitSpaceAux]
    split
    · simp only [List.length_cons]; omega
    · exact ih _

theorem splitSpaceAux_length_two (l cur : List Char) (h : ' ' ∈ l) :
    2 ≤ (splitSpaceAux cur l).length := by
  induction l generalizing cur with
  | nil => simp at h
  | cons c cs ih =>
    simp only [splitSpaceAux]
    split
    · have := splitSpaceAux_length_pos cs ([] : List Char)
      simp only [List.length_cons]; omega
    · rename_i hc
      rcases List.mem_cons.mp h with h1 | h2
      · exact absurd h1.symm hc
      · exact ih _ h2

theorem pySplitSpace_length_two {d : String} (h : ' ' ∈ d.toList) :
    2 ≤ (pySplitSpace d).length := by
  simpa [pySplitSpace] using splitSpaceAux_length_two d.toList [] h

theorem transform_liters_ne_indexError (lst : List String) (h : 2 ≤ lst.length) :
    transform_liters lst ≠ Except.error PyErr.indexError := by
  match lst, h with
  | x0 :: x1 :: rest, _ =>
    simp only [transform_liters]
    split
    · cases pyFloat? x0 <;> simp
    · split
      · cases pyFloat? x0 <;> simp
      · simp

/-! ## Claims -/

/-- Claim C4: beverage classification is a case-insensitive
first-match-wins scan of the ordered keyword rules (diet, caffeine,
energy, kool, root, juice, soda), defaulting to the "other" category;
"Diet Soda" classifies as diet and "Energy Juice" as energy. -/
theorem beverage_classification_spec :
    (∀ d : String, clasificar_bebida d = firstMatch reglasBebida d) ∧
    clasificar_bebida "Diet Soda" = "Bebida de dieta" ∧
    clasificar_bebida "Energy Juice" = "Bebida energética" :=
  ⟨fun _ => rfl, rfl, rfl⟩

/-- Claim C5: volume parsing takes the split descriptor's unit token:
a `Liter` unit keeps the numeric value, `cm3` divides it by 1000, and any
other unit yields an undefined volume without an error; concretely
"2 Liter" gives 2, "500 cm3" gives 1/2 and "1 Gallon" is undefined. -/
theorem volume_parsing_spec :
    (∀ (x0 x1 : String) (rest : List String) (v : Rat),
      pyFloat? x0 = some v → x1 = "Liter" →
        transform_liters (x0 :: x1 :: rest) = .ok (some v)) ∧
    (∀ (x0 x1 : String) (rest : List String) (v : Rat),
      pyFloat? x0 = some v → x1 = "cm3" →
        transform_liters (x0 :: x1 :: rest) = .ok (some (v / 1000))) ∧
    (∀ (x0 x1 : String) (rest : List String),
      x1 ≠ "Liter" → x1 ≠ "cm3" →
        transform_liters (x0 :: x1 :: rest) = .ok none) ∧
    transform_liters (pySplitSpace "2 Liter") = .ok (some 2) ∧
    transform_liters (pySplitSpace "500 cm3") = .ok (some (1 / 2)) ∧
    transform_liters (pySplitSpace "1 Gallon") = .ok none := by
  refine ⟨?_, ?_, ?_, rfl, ?_, rfl⟩
  · intro x0 x1 rest v hv h1
    simp [transform_liters, h1, hv]
  · intro x0 x1 rest v hv h1
    simp [transform_liters, h1, hv]
  · intro x0 x1 rest h1 h2
    simp [transform_liters, h1, h2]
  · have h1 : transform_liters (pySplitSpace "500 cm3") =
      .ok (some ((500 : Rat) / 1000)) := rfl
    rw [h1]; norm_num

/-- Witness for C5 at the concrete inputs of the spec's examples. -/
theorem volume_parsing_spec_witness :
    transform_liters ["1", "Gallon"] = .ok none ∧
    transform_liters ["2", "Liter"] = .ok (some 2) :=
  ⟨volume_parsing_spec.2.2.1 "1" "Gallon" [] (by decide) (by decide),
   volume_parsing_spec.1 "2" "Liter" [] 2 rfl rfl⟩


/-- Claim C10 as stated is false: a descriptor that contains a space can
still raise — a non-numeric first token with a liter unit is a ValueError. -/
theorem volume_totality_counterexample :
    ¬ (∀ d : String, ' ' ∈ d.toList →
        ∃ r : Option Rat, transform_liters (pySplitSpace d) = .ok r) := by
  intro h
  rcases h "x Liter" (by decide) with ⟨r, hr⟩
  rw [show transform_liters (pySplitSpace "x Liter")
        = .error .valueError from rfl] at hr
  exact absurd hr (by simp)

/-- Claim C10 (amended): a descriptor containing a space never raises the
missing-second-token IndexError (though a liter/cc unit with a non-numeric
first token still raises a ValueError); a descriptor with no space splits
into a single token, raises IndexError, and that aborts the whole stage. -/
theorem volume_totality_amended :
    (∀ d : String, ' ' ∈ d.toList →
      transform_liters (pySplitSpace d) ≠ .error .indexError) ∧
    (∀ lst : List String, lst.length < 2 →
      transform_liters lst = .error .indexError) ∧
    transform_liters (pySplitSpace "2Liters") = .error .indexError ∧
    litrosStage ["2Liters"] = .error .indexError := by
  refine ⟨?_, ?_, rfl, rfl⟩
  · intro d hd
    exact transform_liters_ne_indexError _ (pySplitSpace_length_two hd)
  · intro lst hl
    match lst, hl with
    | [], _ => rfl
    | [x], _ => rfl

/-- Witness for the amended C10 at concrete inputs. -/
theorem volume_totality_amended_witness :
    transform_liters (pySplitSpace "2 Liter") ≠ .error .indexError ∧
    transform_liters ["x"] = .error .indexError :=
  ⟨volume_totality_amended.1 "2 Liter" (by decide),
   volume_totality_amended.2.1 ["x"] (by decide)⟩

/-- Claim C6: for a parseable hire date the tenure is the floor of elapsed
days over 365, and the tenure zone steps monotonically at 1 and 5 years;
employment of 0.9 years (328 days) is "Nuevo", 1.0 (365 days) and
4.9 years (1788 days) are "Medio", 5.0 years (1825 days) is "Antiguo". -/
theorem tenure_zone_spec (today h : Int) (r : RawEmpleadoRow)
    (hh : r.EMPLOYMENT_DATE = some h) :
    (conformEmpleado today r).antiguedad = some (Int.fdiv (today - h) 365) ∧
    (conformEmpleado today r).zona = zonaEmpleado (some (Int.fdiv (today - h) 365)) ∧
    (Int.fdiv (today - h) 365 < 1 → (conformEmpleado today r).zona = "Nuevo") ∧
    (1 ≤ Int.fdiv (today - h) 365 ∧ Int.fdiv (today - h) 365 < 5 →
      (conformEmpleado today r).zona = "Medio") ∧
    (5 ≤ Int.fdiv (today - h) 365 → (conformEmpleado today r).zona = "Antiguo") ∧
    zonaEmpleado (antiguedadOf today (some (today - 328))) = "Nuevo" ∧
    zonaEmpleado (antiguedadOf today (some (today - 365))) = "Medio" ∧
    zonaEmpleado (antiguedadOf today (some (today - 1788))) = "Medio" ∧
    zonaEmpleado (antiguedadOf today (some (today - 1825))) = "Antiguo" := by
  have hz : (conformEmpleado today r).zona
      = zonaEmpleado (some (Int.fdiv (today - h) 365)) := by
    simp [conformEmpleado, antiguedadOf, hh]
  have hconc : ∀ d : Int, antiguedadOf today (some (today - d)) = some (Int.fdiv d 365) := by
    intro d
    have hd : today - (today - d) = d := by omega
    simp [antiguedadOf, hd]
  refine ⟨by simp [conformEmpleado, antiguedadOf, hh], hz, ?_, ?_, ?_, ?_, ?_, ?_, ?_⟩
  · intro hlt; rw [hz, zonaEmpleado_some, if_pos hlt]
  · intro hb; rw [hz, zonaEmpleado_some, if_neg (by omega), if_pos (by omega)]
  · intro hb; rw [hz, zonaEmpleado_some, if_neg (by omega), if_neg (by omega)]
  · rw [hconc 328]; decide
  · rw [hconc 365]; decide
  · rw [hconc 1788]; decide
  · rw [hconc 1825]; decide

/-- Witness for C6: an employee hired 365 days ago has one year of tenure
and falls in the middle zone. -/
theorem tenure_zone_spec_witness :
    (conformEmpleado 738000 ⟨1, "a", "M", some 737635, none⟩).antiguedad = some 1 ∧
    (conformEmpleado 738000 ⟨1, "a", "M", some 737635, none⟩).zona = "Medio" := by
  have h := tenure_zone_spec 738000 737635 ⟨1, "a", "M", some 737635, none⟩ rfl
  refine ⟨?_, h.2.2.2.1 (by decide)⟩
  rw [h.1]; decide

/-- Claim C9: an employee row whose hire date fails to parse has a null
tenure, and the NaN-false comparisons send it to the else branch: the
zone is "Antiguo" (the senior category), not "Nuevo" and not null. -/
theorem null_hire_date_senior (today : Int) (r : RawEmpleadoRow)
    (hh : r.EMPLOYMENT_DATE = none) :
    (conformEmpleado today r).antiguedad = none ∧
    (conformEmpleado today r).zona = "Antiguo" ∧
    ("Antiguo" : String) ≠ "Nuevo" := by
  refine ⟨?_, ?_, by decide⟩ <;>
    simp [conformEmpleado, antiguedadOf, hh, zonaEmpleado, ltNan]

/-- Witness for C9 at a concrete unparsable hire date. -/
theorem null_hire_date_senior_witness :
    (conformEmpleado 738000 ⟨7, "b", "F", none, none⟩).antiguedad = none ∧
    (conformEmpleado 738000 ⟨7, "b", "F", none, none⟩).zona = "Antiguo" := by
  have h := null_hire_date_senior 738000 ⟨7, "b", "F", none, none⟩ rfl
  exact ⟨h.1, h.2.1⟩


/-- Claim C2: the age bracket is a pure function of birth date and current
date — age is the year difference adjusted by the lexicographic
(month, day) comparison, bracketed at 20/40/60, with a null birth date
giving the unknown bracket; a customer born exactly 20 years before the
run date falls in the 20-to-40 bracket. -/
theorem age_bracket_spec (today b : SimpleDate) :
    rangoEdadOf today none = "Desconocido" ∧
    calcular_edad today b = today.year - b.year -
      (if today.month < b.month ∨ (today.month = b.month ∧ today.day < b.day)
       then 1 else 0) ∧
    (calcular_edad today b < 20 → rangoEdadOf today (some b) = "Menos de 20") ∧
    (20 ≤ calcular_edad today b ∧ calcular_edad today b < 40 →
      rangoEdadOf today (some b) = "20 a 40") ∧
    (40 ≤ calcular_edad today b ∧ calcular_edad today b < 60 →
      rangoEdadOf today (some b) = "40 a 60") ∧
    (60 ≤ calcular_edad today b → rangoEdadOf today (some b) = "Más de 60") ∧
    (∀ (y : Int) (m d : Nat),
      rangoEdadOf ⟨y, m, d⟩ (some ⟨y - 20, m, d⟩) = "20 a 40") := by
  refine ⟨rfl, rfl, ?_, ?_, ?_, ?_, ?_⟩
  · intro h1; simp only [rangoEdadOf]
    repeat' split
    all_goals first | rfl | omega
  · intro h1; simp only [rangoEdadOf]
    repeat' split
    all_goals first | rfl | omega
  · intro h1; simp only [rangoEdadOf]
    repeat' split
    all_goals first | rfl | omega
  · intro h1; simp only [rangoEdadOf]
    repeat' split
    all_goals first | rfl | omega
  · intro y m d
    have hage : calcular_edad ⟨y, m, d⟩ ⟨y - 20, m, d⟩ = 20 := by
      simp [calcular_edad]
    simp only [rangoEdadOf, hage]
    norm_num

/-- Witness for C2: run date 2026-10-12, birth date 2006-10-12 (exactly
twenty years earlier) gives the 20-to-40 bracket; a null birth date gives
the unknown bracket. -/
theorem age_bracket_spec_witness :
    rangoEdadOf ⟨2026, 10, 12⟩ (some ⟨2006, 10, 12⟩) = "20 a 40" ∧
    rangoEdadOf ⟨2026, 10, 12⟩ none = "Desconocido" :=
  ⟨(age_bracket_spec ⟨2026, 10, 12⟩ ⟨2006, 10, 12⟩).2.2.2.1 (by decide),
   (age_bracket_spec ⟨2026, 10, 12⟩ ⟨2006, 10, 12⟩).1⟩


theorem dropDuplicatesAux_subset {α κ : Type} [DecidableEq κ] (key : α → κ) :
    ∀ (seen : List κ) (l : List α) (r : α),
      r ∈ dropDuplicatesAux key seen l → r ∈ l := by
  intro seen l
  induction l generalizing seen with
  | nil => simp [dropDuplicatesAux]
  | cons a l ih =>
    intro r hr
    simp only [dropDuplicatesAux] at hr
    by_cases h : key a ∈ seen
    · rw [if_pos h] at hr
      exact List.mem_cons_of_mem a (ih seen r hr)
    · rw [if_neg h] at hr
      rcases List.mem_cons.mp hr with h1 | h2
      · exact h1 ▸ List.mem_cons_self a l
      · exact List.mem_cons_of_mem a (ih _ r h2)

theorem dropDuplicatesAux_key_not_seen {α κ : Type} [DecidableEq κ] (key : α → κ) :
    ∀ (seen : List κ) (l : List α) (r : α),
      r ∈ dropDuplicatesAux key seen l → key r ∉ seen := by
  intro seen l
  induction l generalizing seen with
  | nil => simp [dropDuplicatesAux]
  | cons a l ih =>
    intro r hr
    simp only [dropDuplicatesAux] at hr
    by_cases h : key a ∈ seen
    · rw [if_pos h] at hr
      exact ih seen r hr
    · rw [if_neg h] at hr
      rcases List.mem_cons.mp hr with h1 | h2
      · exact h1 ▸ h
      · intro hk
        exact ih _ r h2 (List.mem_cons_of_mem _ hk)

theorem dropDuplicatesAux_nodup {α κ : Type} [DecidableEq κ] (key : α → κ) :
    ∀ (seen : List κ) (l : List α),
      ((dropDuplicatesAux key seen l).map key).Nodup := by
  intro seen l
  induction l generalizing seen with
  | nil => simp [dropDuplicatesAux]
  | cons a l ih =>
    simp only [dropDuplicatesAux]
    by_cases h : key a ∈ seen
    · rw [if_pos h]; exact ih seen
    · rw [if_neg h]
      simp only [List.map_cons, List.nodup_cons]
      refine ⟨?_, ih _⟩
      intro hmem
      rcases List.mem_map.mp hmem with ⟨b, hb, hkb⟩
      have := dropDuplicatesAux_key_not_seen key _ l b hb
      exact this (hkb ▸ List.mem_cons_self _ _)

theorem dropDuplicatesAux_find? {α κ : Type} [DecidableEq κ] (key : α → κ) :
    ∀ (seen : List κ) (l : List α) (k : κ), k ∉ seen →
      (dropDuplicatesAux key seen l).find? (fun r => key r == k) =
        l.find? (fun r => key r == k) := by
  intro seen l
  induction l generalizing seen with
  | nil => simp [dropDuplicatesAux]
  | cons a l ih =>
    intro k hk
    simp only [dropDuplicatesAux]
    by_cases h : key a ∈ seen
    · rw [if_pos h]
      have hak : (key a == k) = false := by
        simp only [beq_eq_false_iff_ne, ne_eq]
        intro he; exact hk (he ▸ h)
      simp only [List.find?, hak]
      exact ih seen k hk
    · rw [if_neg h]
      by_cases hak : key a = k
      · have ht : (key a == k) = true := by simpa using hak
        simp only [List.find?, ht]
      · have hf : (key a == k) = false := by simpa using hak
        simp only [List.find?, hf]
        exact ih _ k (by
          intro hmem
          rcases List.mem_cons.mp hmem with h1 | h2
          · exact hak h1.symm
          · exact hk h2)

theorem dropDuplicatesAux_key_mem {α κ : Type} [DecidableEq κ] (key : α → κ) :
    ∀ (seen : List κ) (l : List α) (k : κ),
      k ∈ l.map key → k ∉ seen → k ∈ (dropDuplicatesAux key seen l).map key := by
  intro seen l
  induction l generalizing seen with
  | nil => simp
  | cons a l ih =>
    intro k hk hks
    rw [List.map_cons] at hk
    simp only [dropDuplicatesAux]
    rcases List.mem_cons.mp hk with h1 | h2
    · by_cases h : key a ∈ seen
      · exact absurd (h1 ▸ h) hks
      · rw [if_neg h, List.map_cons]
        exact List.mem_cons.mpr (Or.inl h1)
    · by_cases h : key a ∈ seen
      · rw [if_pos h]
        exact ih seen k h2 hks
      · rw [if_neg h, List.map_cons]
        by_cases hka : k = key a
        · exact List.mem_cons.mpr (Or.inl hka)
        · refine List.mem_cons.mpr (Or.inr (ih _ k h2 ?_))
          intro hmem
          rcases List.mem_cons.mp hmem with m1 | m2
          · exact hka m1
          · exact hks m2

/-- Claim C7: loading a non-empty table drops rows duplicating an earlier
row's key-column value, keeping exactly the first-encountered row per key,
so the key column is unique afterwards; empty tables are skipped with a
notice rather than an error. -/
theorem load_dedup_spec {α κ : Type} [DecidableEq κ] (key : α → κ) (df : List α) :
    (df ≠ [] →
      insertar_tabla key df = .inserted (dropDuplicatesFirst key df) ∧
      ((dropDuplicatesFirst key df).map key).Nodup ∧
      (∀ k : κ, (dropDuplicatesFirst key df).find? (fun r => key r == k) =
        df.find? (fun r => key r == k)) ∧
      (∀ k ∈ df.map key, k ∈ (dropDuplicatesFirst key df).map key) ∧
      (∀ r ∈ dropDuplicatesFirst key df, r ∈ df)) ∧
    insertar_tabla key ([] : List α) = .skipped := by
  constructor
  · intro hne
    refine ⟨?_, dropDuplicatesAux_nodup key [] df, ?_, ?_, ?_⟩
    · simp [insertar_tabla, hne]
    · intro k
      exact dropDuplicatesAux_find? key [] df k (by simp)
    · intro k hk
      exact dropDuplicatesAux_key_mem key [] df k hk (by simp)
    · intro r hr
      exact dropDuplicatesAux_subset key [] df r hr
  · rfl

/-- Witness for C7: a two-row table with a duplicated key keeps only the
first row; the empty table is skipped. -/
theorem load_dedup_spec_witness :
    insertar_tabla (fun p : Nat × String => p.1) [(1, "x"), (1, "y")] =
      .inserted [(1, "x")] ∧
    insertar_tabla (fun p : Nat × String => p.1) ([] : List (Nat × String)) =
      .skipped := by
  have h := load_dedup_spec (fun p : Nat × String => p.1) [(1, "x"), (1, "y")]
  refine ⟨?_, h.2⟩
  have h1 := (h.1 (by decide)).1
  rw [h1]
  rfl


theorem traducir_cliente_error (today : SimpleDate) (regiones : List RegionRow)
    (df : RawCustomerTable) (tipo : String)
    (h : ∃ c ∈ requiredCustomerCols, c ∉ df.cols) :
    ∃ c, traducir_cliente today regiones df tipo = .error (.schemaError c) := by
  have hsome : (requiredCustomerCols.find? (fun c => !(df.cols.contains c))).isSome := by
    rw [List.find?_isSome]
    rcases h with ⟨c, hc, hnc⟩
    exact ⟨c, hc, by simpa using hnc⟩
  rcases Option.isSome_iff_exists.mp hsome with ⟨c, hfind⟩
  refine ⟨c, ?_⟩
  simp only [traducir_cliente]
  rw [hfind]

theorem traducir_cliente_ok (today : SimpleDate) (regiones : List RegionRow)
    (df : RawCustomerTable) (tipo : String)
    (h : ∀ c ∈ requiredCustomerCols, c ∈ df.cols) :
    traducir_cliente today regiones df tipo =
      .ok (df.rows.map (conformCliente today regiones tipo)) := by
  have hn : requiredCustomerCols.find? (fun c => !(df.cols.contains c)) = none := by
    rw [List.find?_eq_none]
    intro c hc
    simpa using h c hc
  simp only [traducir_cliente]
  rw [hn]

/-- Claim C3: a customer whose lowercased-and-trimmed (city, state) pair is
present in the normalized region table gets the first matching row's
trimmed region (non-undefined); an absent pair leaves the region
undefined, and the conformer does not fail either way. -/
theorem region_resolution_spec (today : SimpleDate) (regiones : List RegionRow)
    (tipo : String) (r : RawCustomerRow) (c s : String)
    (hc : r.CITY = some c) (hs : r.STATE = some s) :
    ((∃ reg ∈ regiones.map normRegion,
        reg.CITY = lowerStrip c ∧ reg.STATE = lowerStrip s) →
      ∃ reg, (regiones.map normRegion).find?
          (fun q => q.CITY == lowerStrip c && q.STATE == lowerStrip s) = some reg ∧
        (conformCliente today regiones tipo r).zona = some (pyStrip reg.REGION)) ∧
    ((∀ reg ∈ regiones.map normRegion,
        ¬ (reg.CITY = lowerStrip c ∧ reg.STATE = lowerStrip s)) →
      (conformCliente today regiones tipo r).zona = none) := by
  have hz : (conformCliente today regiones tipo r).zona
      = zonaLookup regiones (some (lowerStrip c)) (some (lowerStrip s)) := by
    simp [conformCliente, hc, hs]
  constructor
  · intro hex
    rcases hex with ⟨reg, hreg, hcs⟩
    have hsome : ((regiones.map normRegion).find?
        (fun q => q.CITY == lowerStrip c && q.STATE == lowerStrip s)).isSome := by
      rw [List.find?_isSome]
      exact ⟨reg, hreg, by simp [hcs.1, hcs.2]⟩
    rcases Option.isSome_iff_exists.mp hsome with ⟨reg2, hfind⟩
    refine ⟨reg2, hfind, ?_⟩
    rw [hz]
    simp [zonaLookup, hfind]
  · intro hnone
    have hfn : (regiones.map normRegion).find?
        (fun q => q.CITY == lowerStrip c && q.STATE == lowerStrip s) = none := by
      rw [List.find?_eq_none]
      intro q hq
      simp only [Bool.and_eq_true, beq_iff_eq, not_and]
      intro h1 h2
      exact hnone q hq ⟨h1, h2⟩
    rw [hz]
    simp [zonaLookup, hfn]

/-- Witness for C3: region row ("north", "ca", "la") resolves the
mixed-case customer CITY="LA", STATE="Ca" to region "north", and an
absent pair resolves to an undefined region. -/
theorem region_resolution_spec_witness :
    (conformCliente ⟨2026, 1, 1⟩ [⟨"north", "ca", "la"⟩] "minorista"
      ⟨some 1, some "n", some "LA", some "Ca", none⟩).zona = some "north" ∧
    (conformCliente ⟨2026, 1, 1⟩ [⟨"north", "ca", "la"⟩] "minorista"
      ⟨some 2, some "m", some "zz", some "zz", none⟩).zona = none := by
  constructor
  · have h1 := (region_resolution_spec ⟨2026, 1, 1⟩ [⟨"north", "ca", "la"⟩] "minorista"
        ⟨some 1, some "n", some "LA", some "Ca", none⟩ "LA" "Ca" rfl rfl).1
        ⟨⟨"north", "ca", "la"⟩, by decide, by decide, by decide⟩
    rcases h1 with ⟨reg, hfind, hzona⟩
    have he : reg = ⟨"north", "ca", "la"⟩ := by
      have : (([⟨"north", "ca", "la"⟩] : List RegionRow).map normRegion).find?
          (fun q => q.CITY == lowerStrip "LA" && q.STATE == lowerStrip "Ca") =
          some ⟨"north", "ca", "la"⟩ := by decide
      rw [this] at hfind
      exact (Option.some_injective _ hfind).symm
    rw [hzona, he]
    rfl
  · exact (region_resolution_spec ⟨2026, 1, 1⟩ [⟨"north", "ca", "la"⟩] "minorista"
      ⟨some 2, some "m", some "zz", some "zz", none⟩ "zz" "zz" rfl rfl).2 (by decide)

/-- Claim C8: a required input column absent from either customer source
makes the customer conformer fail with the schema error (aborting the
stage and the run), while with all columns present the conformer always
succeeds — per-row issues only degrade to nulls/"unknown" values. -/
theorem schema_error_spec (today : SimpleDate) (regiones : List RegionRow)
    (cr cw : RawCustomerTable) :
    ((∃ c ∈ requiredCustomerCols, c ∉ cr.cols ∨ c ∉ cw.cols) →
      ∃ c, cargar_clientes today regiones cr cw = .error (.schemaError c)) ∧
    ((∀ c ∈ requiredCustomerCols, c ∈ cr.cols ∧ c ∈ cw.cols) →
      cargar_clientes today regiones cr cw =
        .ok (cr.rows.map (conformCliente today regiones "minorista") ++
             cw.rows.map (conformCliente today regiones "mayorista"))) := by
  constructor
  · intro hex
    rcases hex with ⟨c, hc, hor⟩
    by_cases hcr : ∃ c ∈ requiredCustomerCols, c ∉ cr.cols
    · rcases traducir_cliente_error today regiones cr "minorista" hcr with ⟨c1, h1⟩
      exact ⟨c1, by simp [cargar_clientes, h1]⟩
    · push_neg at hcr
      have hmw : c ∉ cw.cols := by
        rcases hor with h1 | h2
        · exact absurd (hcr c hc) h1
        · exact h2
      have hok := traducir_cliente_ok today regiones cr "minorista" hcr
      rcases traducir_cliente_error today regiones cw "mayorista" ⟨c, hc, hmw⟩ with ⟨c2, h2⟩
      exact ⟨c2, by simp [cargar_clientes, hok, h2]⟩
  · intro hall
    have h1 := traducir_cliente_ok today regiones cr "minorista" (fun c hc => (hall c hc).1)
    have h2 := traducir_cliente_ok today regiones cw "mayorista" (fun c hc => (hall c hc).2)
    simp [cargar_clientes, h1, h2]

/-- Witness for C8: a source missing FULL_NAME aborts with a schema error;
two sources carrying all required columns load successfully. -/
theorem schema_error_spec_witness :
    (∃ c, cargar_clientes ⟨2026, 1, 1⟩ [] ⟨["CUSTOMER_ID"], []⟩
        ⟨requiredCustomerCols, []⟩ = .error (.schemaError c)) ∧
    cargar_clientes ⟨2026, 1, 1⟩ [] ⟨requiredCustomerCols, []⟩
        ⟨requiredCustomerCols, []⟩ = .ok [] := by
  constructor
  · exact (schema_error_spec ⟨2026, 1, 1⟩ [] ⟨["CUSTOMER_ID"], []⟩
      ⟨requiredCustomerCols, []⟩).1 ⟨"FULL_NAME", by decide, Or.inl (by decide)⟩
  · have h := (schema_error_spec ⟨2026, 1, 1⟩ [] ⟨requiredCustomerCols, []⟩
      ⟨requiredCustomerCols, []⟩).2 (fun c hc => ⟨hc, hc⟩)
    simpa using h


theorem timeRowsFrom_map_id (n : Nat) (l : List SimpleDate) :
    (timeRowsFrom n l).map (fun t => t.id_tiempo) = List.range' n l.length := by
  induction l generalizing n with
  | nil => rfl
  | cons d ds ih => simp [timeRowsFrom, List.range', ih]

theorem timeRowsFrom_mem_fecha (n : Nat) (l : List SimpleDate) (d : SimpleDate)
    (h : d ∈ l) : ∃ t ∈ timeRowsFrom n l, t.fecha = d := by
  induction l generalizing n with
  | nil => simp at h
  | cons a ds ih =>
    rcases List.mem_cons.mp h with h1 | h2
    · exact ⟨⟨n, a, a.day, a.month, (a.month + 2) / 3, a.year⟩,
        List.mem_cons_self _ _, h1.symm⟩
    · rcases ih (n + 1) h2 with ⟨t, ht, hf⟩
      exact ⟨t, List.mem_cons_of_mem _ ht, hf⟩

/-- Claim C1: the time dimension's surrogate ids are exactly the contiguous
sequence 1..N over the distinct successfully-parsed dates in first-seen
order, and every fact row's time key is one of those ids — rows with an
unparsable date were dropped beforehand, so no fact row has a null or
dangling time reference. -/
theorem time_dimension_integrity (billing_df : List BillingRow) :
    (dimension_tiempo billing_df).map (fun t => t.id_tiempo) =
      List.range' 1 (uniqueDates billing_df).length ∧
    (∀ v ∈ ventas billing_df, ∃ k, v.id_tiempo = some k ∧
      k ∈ (dimension_tiempo billing_df).map (fun t => t.id_tiempo)) := by
  constructor
  · exact timeRowsFrom_map_id 1 (uniqueDates billing_df)
  · intro v hv
    rcases List.mem_map.mp hv with ⟨r, hr, hveq⟩
    have hds : r.date.isSome := (List.mem_filter.mp hr).2
    rcases Option.isSome_iff_exists.mp hds with ⟨d, hd⟩
    have hdm : d ∈ (parsedRows billing_df).filterMap (fun r => r.date) :=
      List.mem_filterMap.mpr ⟨r, hr, hd⟩
    have hdu : d ∈ uniqueDates billing_df := by
      have h2 := dropDuplicatesAux_key_mem (fun x : SimpleDate => x) []
        ((parsedRows billing_df).filterMap (fun r => r.date)) d
        (by simpa using hdm) (by simp)
      simpa [uniqueDates, dropDuplicatesFirst] using h2
    rcases timeRowsFrom_mem_fecha 1 (uniqueDates billing_df) d hdu with ⟨t0, ht0, hf0⟩
    have hsome : ((dimension_tiempo billing_df).find? (fun t => t.fecha == d)).isSome := by
      rw [List.find?_isSome]
      exact ⟨t0, by simpa [dimension_tiempo] using ht0, by simp [hf0]⟩
    rcases Option.isSome_iff_exists.mp hsome with ⟨t, hft⟩
    refine ⟨t.id_tiempo, ?_, ?_⟩
    · subst hveq
      simp [hd, dateIdMap, hft]
    · exact List.mem_map.mpr ⟨t, List.mem_of_find?_eq_some hft, rfl⟩

/-- Witness for C1 on a concrete billing frame: one parsed date, one NaT
row; the time dimension's ids are `[1]` and the single fact row
references id 1. -/
theorem time_dimension_integrity_witness :
    (dimension_tiempo
        [⟨1, none, 1, some ⟨2020, 1, 5⟩, 2, 3, 4, 5, none, 6⟩,
         ⟨2, none, 1, none, 7, 8, 9, 10, none, 11⟩]).map (fun t => t.id_tiempo) =
      List.range' 1 (uniqueDates
        [⟨1, none, 1, some ⟨2020, 1, 5⟩, 2, 3, 4, 5, none, 6⟩,
         ⟨2, none, 1, none, 7, 8, 9, 10, none, 11⟩]).length ∧
    ∃ k, (⟨some 1, 2, 3, 4, 5, 6⟩ : VentaRow).id_tiempo = some k ∧
      k ∈ (dimension_tiempo
        [⟨1, none, 1, some ⟨2020, 1, 5⟩, 2, 3, 4, 5, none, 6⟩,
         ⟨2, none, 1, none, 7, 8, 9, 10, none, 11⟩]).map (fun t => t.id_tiempo) :=
  ⟨(time_dimension_integrity _).1,
   (time_dimension_integrity _).2 ⟨some 1, 2, 3, 4, 5, 6⟩ (by decide)⟩

end ETL
